import Mathlib

/-!
Verification development for the Agri-Advisor crop prediction core
(`ml-service/app/models/predictor.py` and `predictor_v3.py`).

The Python source is shallowly embedded: numeric values are modelled as
rationals (`ℚ`), Python dictionaries as association lists or structures with
optional fields, Python sets as deduplicated lists, and Python string
uppercasing as a character-wise map.  `round(x, n)` in Python rounds half to
even; it is modelled exactly by `rhe` below.  Each definition is translated
from the named source function.
-/

set_option allowUnsafeReducibility true in
attribute [semireducible] Rat.add Rat.sub Rat.mul Rat.inv Rat.ofScientific

namespace AgriAdvisor

/-- Round half to even (Python `round` for the final rounding step),
on exact rational inputs. -/
def rhe (x : ℚ) : ℤ :=
  if x - (⌊x⌋ : ℚ) < 1/2 then ⌊x⌋
  else if 1/2 < x - (⌊x⌋ : ℚ) then ⌊x⌋ + 1
  else if Even ⌊x⌋ then ⌊x⌋ else ⌊x⌋ + 1

/-- Model of Python `round(x, 0)` (result used as a number). -/
def round0 (x : ℚ) : ℚ := (rhe x : ℚ)

/-- Model of Python `round(x, 1)`. -/
def round1 (x : ℚ) : ℚ := (rhe (10 * x) : ℚ) / 10

theorem floor_le_rhe (x : ℚ) : ⌊x⌋ ≤ rhe x := by
  unfold rhe; split_ifs <;> omega

theorem rhe_le_floor_add_one (x : ℚ) : rhe x ≤ ⌊x⌋ + 1 := by
  unfold rhe; split_ifs <;> omega

theorem le_rhe_of_le (n : ℤ) {x : ℚ} (h : (n : ℚ) ≤ x) : n ≤ rhe x :=
  le_trans (Int.le_floor.mpr h) (floor_le_rhe x)

theorem rhe_le_of_le (n : ℤ) {x : ℚ} (h : x ≤ (n : ℚ)) : rhe x ≤ n := by
  have hf : ⌊x⌋ ≤ n := by
    have := Int.floor_le_floor h
    simpa using this
  rcases lt_or_eq_of_le hf with hlt | heq
  · exact le_trans (rhe_le_floor_add_one x) (by omega)
  · have hr : x - (⌊x⌋ : ℚ) < 1/2 := by
      have : x - (⌊x⌋ : ℚ) ≤ 0 := by rw [heq]; linarith
      linarith
    unfold rhe
    rw [if_pos hr]
    exact le_of_eq heq

theorem rhe_mono {x y : ℚ} (h : x ≤ y) : rhe x ≤ rhe y := by
  have hf : ⌊x⌋ ≤ ⌊y⌋ := Int.floor_le_floor h
  rcases lt_or_eq_of_le hf with hlt | heq
  · exact le_trans (rhe_le_floor_add_one x) (le_trans (by omega) (floor_le_rhe y))
  · have hr : x - (⌊x⌋ : ℚ) ≤ y - (⌊y⌋ : ℚ) := by
      rw [heq]; linarith
    unfold rhe
    rw [← heq] at hr ⊢
    split_ifs <;> first | omega | (exfalso; linarith)

theorem round0_le_of_le (n : ℤ) {x : ℚ} (h : x ≤ (n : ℚ)) : round0 x ≤ (n : ℚ) := by
  unfold round0; exact_mod_cast rhe_le_of_le n h

theorem le_round0_of_le (n : ℤ) {x : ℚ} (h : (n : ℚ) ≤ x) : (n : ℚ) ≤ round0 x := by
  unfold round0; exact_mod_cast le_rhe_of_le n h

theorem round0_mono {x y : ℚ} (h : x ≤ y) : round0 x ≤ round0 y := by
  unfold round0; exact_mod_cast rhe_mono h

theorem round1_mono {x y : ℚ} (h : x ≤ y) : round1 x ≤ round1 y := by
  unfold round1
  have := rhe_mono (mul_le_mul_of_nonneg_left h (by norm_num : (0:ℚ) ≤ 10))
  have h10 : (rhe (10 * x) : ℚ) ≤ (rhe (10 * y) : ℚ) := by exact_mod_cast this
  linarith

theorem round1_le_of_le (n : ℤ) {x : ℚ} (h : x ≤ (n : ℚ)) : round1 x ≤ (n : ℚ) := by
  unfold round1
  have hx : 10 * x ≤ ((10 * n : ℤ) : ℚ) := by push_cast; linarith
  have := rhe_le_of_le (10 * n) hx
  have h10 : (rhe (10 * x) : ℚ) ≤ ((10 * n : ℤ) : ℚ) := by exact_mod_cast this
  push_cast at h10
  linarith

theorem le_round1_of_le (n : ℤ) {x : ℚ} (h : (n : ℚ) ≤ x) : (n : ℚ) ≤ round1 x := by
  unfold round1
  have hx : ((10 * n : ℤ) : ℚ) ≤ 10 * x := by push_cast; linarith
  have := le_rhe_of_le (10 * n) hx
  have h10 : ((10 * n : ℤ) : ℚ) ≤ (rhe (10 * x) : ℚ) := by exact_mod_cast this
  push_cast at h10
  linarith

/-- Model of Python `str.upper()` on the strings used by the predictor
(character-wise basic-latin uppercasing, as in `Char.toUpper`). -/
def pyUpper (s : String) : String := String.mk (s.data.map Char.toUpper)

theorem char_toNat_ofNat_of_lt {n : ℕ} (h : n < 55296) : (Char.ofNat n).toNat = n := by
  unfold Char.ofNat
  rw [dif_pos (Or.inl h)]
  rfl

theorem char_toUpper_idem (c : Char) : c.toUpper.toUpper = c.toUpper := by
  show Char.toUpper (Char.toUpper c) = Char.toUpper c
  unfold Char.toUpper
  by_cases h : c.toNat ≥ 97 ∧ c.toNat ≤ 122
  · rw [if_pos h]
    have hv : (Char.ofNat (c.toNat - 32)).toNat = c.toNat - 32 :=
      char_toNat_ofNat_of_lt (by omega)
    rw [if_neg (by rw [hv]; omega)]
  · rw [if_neg h]
    show (if c.toNat ≥ 97 ∧ c.toNat ≤ 122 then Char.ofNat (c.toNat - 32) else c) = c
    rw [if_neg h]

theorem pyUpper_idem (s : String) : pyUpper (pyUpper s) = pyUpper s := by
  unfold pyUpper
  apply congrArg String.mk
  rw [List.map_map]
  exact List.map_congr_left (fun a _ => char_toUpper_idem a)

theorem lookup_mem {β : Type} {l : List (String × β)} {k : String} {b : β}
    (h : l.lookup k = some b) : (k, b) ∈ l := by
  rcases List.lookup_eq_some_iff.mp h with ⟨l₁, l₂, rfl, -⟩
  exact List.mem_append_right _ (List.mem_cons_self _ _)

/-- Embedding of `CropPredictor.CROP_TEMP_RANGES` (identical in
`CropPredictorV3.CROP_TEMP_RANGES`). -/
def cropTempRanges : List (String × ℚ × ℚ) :=
  [("CEREALS_WHEAT", 10, 25),
   ("CEREALS_RICE", 20, 35),
   ("CEREALS_MAIZE", 18, 32),
   ("CEREALS_BARLEY", 8, 22),
   ("CEREALS_MILLETS", 25, 40),
   ("PULSES", 15, 30),
   ("OILSEEDS", 20, 35),
   ("SUGARCANE", 20, 35),
   ("COTTON", 21, 35),
   ("JUTE", 24, 37),
   ("TOBACCO", 18, 28),
   ("VEGETABLES", 15, 30),
   ("FRUITS", 15, 35),
   ("SPICES", 20, 35),
   ("PLANTATION", 20, 30),
   ("FIBER", 25, 35)]

/-- Embedding of `CropPredictor.DEFAULT_SEASON_CROPS` (identical in
`CropPredictorV3`); `Dict.get(season, [])` is modelled by `lookup` + `getD`. -/
def defaultSeasonCrops (season : String) : List String :=
  ([("KHARIF", ["CEREALS_RICE", "CEREALS_MAIZE", "CEREALS_MILLETS", "PULSES", "OILSEEDS",
                "COTTON", "JUTE", "SUGARCANE", "VEGETABLES", "FRUITS"]),
    ("RABI", ["CEREALS_WHEAT", "CEREALS_BARLEY", "PULSES", "OILSEEDS", "VEGETABLES",
              "SPICES", "TOBACCO"]),
    ("SUMMER", ["CEREALS_MAIZE", "CEREALS_MILLETS", "PULSES", "VEGETABLES", "FRUITS", "OILSEEDS"]),
    ("WINTER", ["CEREALS_WHEAT", "CEREALS_BARLEY", "VEGETABLES", "SPICES", "OILSEEDS", "PULSES"]),
    ("AUTUMN", ["CEREALS_RICE", "PULSES", "VEGETABLES", "OILSEEDS", "CEREALS_MAIZE"]),
    ("WHOLE YEAR", ["SUGARCANE", "VEGETABLES", "FRUITS", "PLANTATION", "SPICES", "FIBER"])]
   : List (String × List String)).lookup season |>.getD []

/-- Embedding of the `default_yields` table that appears (identically) in
`CropPredictor._predict_yield_ml`, `CropPredictor._predict_with_rules` and
`CropPredictorV3._predict_yield`. -/
def defaultYields : List (String × ℚ) :=
  [("CEREALS_WHEAT", 3500), ("CEREALS_RICE", 3000), ("CEREALS_MAIZE", 4000),
   ("CEREALS_BARLEY", 2800), ("CEREALS_MILLETS", 1500), ("PULSES", 1200),
   ("OILSEEDS", 1200), ("SUGARCANE", 70000), ("COTTON", 500),
   ("JUTE", 2500), ("TOBACCO", 1800), ("VEGETABLES", 15000),
   ("FRUITS", 10000), ("SPICES", 2000), ("PLANTATION", 5000), ("FIBER", 1500)]

/-- Embedding of `CropPredictor._calculate_temp_suitability`
(line-for-line identical to `CropPredictorV3._calculate_temp_suitability`). -/
def tempSuitability (crop : String) (temperature : ℚ) : ℚ :=
  match cropTempRanges.lookup crop with
  | none => 0.7
  | some (tmin, tmax) =>
    if tmin ≤ temperature ∧ temperature ≤ tmax then
      1.0 - (|temperature - (tmin + tmax) / 2| / ((tmax - tmin) / 2)) * 0.2
    else if temperature < tmin then
      max 0.2 (0.8 - (tmin - temperature) * 0.05)
    else
      max 0.2 (0.8 - (temperature - tmax) * 0.05)

theorem cropTempRanges_lt {crop : String} {tmin tmax : ℚ}
    (h : cropTempRanges.lookup crop = some (tmin, tmax)) : tmin < tmax := by
  have hm := lookup_mem h
  have : ∀ p ∈ cropTempRanges, p.2.1 < p.2.2 := by decide
  exact this _ hm

theorem tempSuitability_bounds (crop : String) (t : ℚ) :
    0.2 ≤ tempSuitability crop t ∧ tempSuitability crop t ≤ 1 := by
  unfold tempSuitability
  cases hl : cropTempRanges.lookup crop with
  | none => norm_num
  | some p =>
    obtain ⟨tmin, tmax⟩ := p
    have hlt : tmin < tmax := cropTempRanges_lt hl
    dsimp only
    split_ifs with h1 h2
    · have hw : (0:ℚ) < (tmax - tmin) / 2 := by linarith
      have habs : |t - (tmin + tmax) / 2| ≤ (tmax - tmin) / 2 := by
        rw [abs_le]; constructor <;> linarith [h1.1, h1.2]
      have hnn : (0:ℚ) ≤ |t - (tmin + tmax) / 2| := abs_nonneg _
      have hd1 : |t - (tmin + tmax) / 2| / ((tmax - tmin) / 2) ≤ 1 :=
        (div_le_one hw).mpr habs
      have hd0 : (0:ℚ) ≤ |t - (tmin + tmax) / 2| / ((tmax - tmin) / 2) :=
        div_nonneg hnn (le_of_lt hw)
      constructor <;> nlinarith
    · constructor
      · exact le_max_left _ _
      · have : (0.8 : ℚ) - (tmin - t) * 0.05 ≤ 0.8 := by nlinarith
        have := max_le (by norm_num : (0.2:ℚ) ≤ 1) (le_trans this (by norm_num))
        exact this
    · constructor
      · exact le_max_left _ _
      · have ht : tmax < t := by
          rcases not_and_or.mp h1 with h | h
        -- tmin ≤ t fails is impossible here since ¬(t < tmin); so t > tmax
          · exact absurd (le_of_not_lt h2) (by intro hc; exact h (by linarith))
          · exact lt_of_not_le h
        have : (0.8 : ℚ) - (t - tmax) * 0.05 ≤ 0.8 := by nlinarith
        exact max_le (by norm_num) (le_trans this (by norm_num))

/-- Embedding of the prediction-call FeatureInput dictionary: the recognized
keys, each optional (`None` models an absent key). -/
structure Feat where
  state : Option String
  district : Option String
  season : Option String
  avg_temperature : Option ℚ
  avg_humidity : Option ℚ
  soil_moisture : Option ℚ
  soil_nitrogen : Option ℚ
  soil_phosphorus : Option ℚ
  soil_potassium : Option ℚ
  soil_zn : Option ℚ
  soil_fe : Option ℚ
  soil_cu : Option ℚ
  soil_mn : Option ℚ
  soil_b : Option ℚ
  soil_s : Option ℚ
deriving DecidableEq

/-- FeatureInput with every key absent. -/
def Feat.empty : Feat :=
  ⟨none, none, none, none, none, none, none, none, none, none, none, none, none, none, none⟩

/-- Yield-prediction record (the `unit` field is the constant string the
source always emits). -/
structure YieldPred where
  ymin : ℚ
  ymax : ℚ
  expected : ℚ
  unit : String
deriving DecidableEq

/-- Per-factor environmental match breakdown
(`_calculate_environmental_factors`). -/
structure EnvFactors where
  soilMatch : ℚ
  npkMatch : ℚ
  weatherMatch : ℚ
  historicalYield : ℚ
deriving DecidableEq

/-- Recommendation record returned by `predict`.  The free-text
`explanation` field is omitted from the embedding: no claim concerns it and
it is a pure function of the other fields and the input. -/
structure Rec where
  cropName : String
  suitabilityScore : ℚ
  yieldPrediction : YieldPred
  environmentalFactors : EnvFactors
  seasonMatch : Bool
  temperatureSuitability : ℚ
deriving DecidableEq

/-- Crop yield profile entry (`crop_profiles_v3.json`); `Option` models a
possibly missing dictionary key, read through `.get` with a default. -/
structure CropProfile where
  yieldMean : Option ℚ
  yieldStd : Option ℚ
deriving DecidableEq

/-- Loaded-artifact state of a `CropPredictor` carrying v3 artifacts (the
newest format, which the loader prefers), or no artifacts at all
(`useML = false`).  `probs` is the probability row
`classifier.predict_proba(scaler.transform(...))[0]` the frozen model
produces for the current call; `none` models the model path raising
(shape mismatch, scaler failure), which the source catches per call. -/
structure Config where
  useML : Bool
  probs : Option (List ℚ)
  cropClasses : List String
  seasonCropMap : List (String × List (String × List String))
  cropProfiles : List (String × List (String × CropProfile))

/-- Entry normalization performed at the top of `predict` (lines 840-848 of
`predictor.py`): the three categorical keys are uppercased and written back
into the caller's dictionary. -/
def normalize (f : Feat) : Feat :=
  { f with
    state := some (pyUpper (f.state.getD ""))
    district := some (pyUpper (f.district.getD ""))
    season := some (pyUpper (f.season.getD "KHARIF")) }

/-- Embedding of `CropPredictor._get_crops_for_season`: Python `set(...)` is
modelled by `List.dedup`; dictionary iteration order (for the state-level
fallback scan) is the insertion order of the association list. -/
def getCropsForSeason (m : List (String × List (String × List String)))
    (state district season : String) : List String :=
  let season := pyUpper season
  let viaMap : Option (List String) :=
    if m.isEmpty then none
    else
      match m.lookup season with
      | none => none
      | some sm =>
        match sm.lookup (pyUpper (state ++ "_" ++ district)) with
        | some crops => some crops
        | none => (sm.find? (fun kv => kv.1.startsWith (pyUpper state))).map (fun kv => kv.2)
  (viaMap.getD (defaultSeasonCrops season)).dedup

/-- Profile-based yield estimate of `_predict_yield_ml` / `_predict_yield`:
expected = profile mean × temperature suitability,
min = max(100, expected − std), max = expected + std. -/
def profileYield (prof : CropProfile) (crop : String) (temperature : ℚ) : YieldPred :=
  let yieldMean := prof.yieldMean.getD 2000
  let yieldStd := prof.yieldStd.getD 500
  let tempSuit := tempSuitability crop temperature
  let expected := yieldMean * tempSuit
  { ymin := round0 (max 100 (expected - yieldStd)),
    ymax := round0 (expected + yieldStd),
    expected := round0 expected,
    unit := "kg/hectare" }

/-- Per-category default yield estimate of `_predict_yield_ml` /
`_predict_yield`: static base yield × temperature suitability with a
fixed ±30% spread. -/
def categoryDefaultYield (crop : String) (temperature : ℚ) : YieldPred :=
  let baseYield := (defaultYields.lookup crop).getD 2000
  let tempSuit := tempSuitability crop temperature
  let expected := baseYield * tempSuit
  { ymin := round0 (expected * 0.7),
    ymax := round0 (expected * 1.3),
    expected := round0 expected,
    unit := "kg/hectare" }

/-- Profile key `f"{state}_{district}_{season}".upper()` of the yield
functions. -/
def yieldKey (f : Feat) : String :=
  pyUpper (pyUpper (f.state.getD "") ++ "_" ++ pyUpper (f.district.getD "") ++ "_" ++
    pyUpper (f.season.getD "KHARIF"))

/-- Embedding of the v3 branch of `CropPredictor._predict_yield_ml`
(profile-based estimate when a profile exists, per-category default yield
otherwise; note the 28.0 temperature default of that function). -/
def predictYieldML (profiles : List (String × List (String × CropProfile)))
    (crop : String) (f : Feat) : YieldPred :=
  match (profiles.lookup (yieldKey f)).bind (fun m => m.lookup crop) with
  | some prof => profileYield prof crop (f.avg_temperature.getD 28)
  | none => categoryDefaultYield crop (f.avg_temperature.getD 28)

/-- Embedding of `CropPredictorV3._predict_yield` (same structure as the v3
branch above, but with that function's 25 temperature default). -/
def predictYieldV3 (profiles : List (String × List (String × CropProfile)))
    (crop : String) (f : Feat) : YieldPred :=
  match (profiles.lookup (yieldKey f)).bind (fun m => m.lookup crop) with
  | some prof => profileYield prof crop (f.avg_temperature.getD 25)
  | none => categoryDefaultYield crop (f.avg_temperature.getD 25)

/-- Embedding of `CropPredictor._calculate_environmental_factors` with
`historical = None` (v3 artifact loading leaves `district_profiles` empty,
so the historical branch is dead in the embedded configuration). -/
def envFactors (f : Feat) : EnvFactors :=
  let soilOf : ℚ → ℚ := fun v => if v ≥ 50 then 25 else if v ≥ 30 then 15 else 0
  let soil := soilOf (f.soil_zn.getD 50) + soilOf (f.soil_fe.getD 50) +
    soilOf (f.soil_cu.getD 50) + soilOf (f.soil_mn.getD 50)
  let nitrogen := f.soil_nitrogen.getD 100
  let npk1 : ℚ := if 50 ≤ nitrogen ∧ nitrogen ≤ 200 then 35 else 0
  let phosphorus := f.soil_phosphorus.getD 20
  let npk2 : ℚ := if 10 ≤ phosphorus ∧ phosphorus ≤ 50 then 35 else 0
  let potassium := f.soil_potassium.getD 150
  let npk3 : ℚ := if 80 ≤ potassium ∧ potassium ≤ 250 then 30 else 0
  let temp := f.avg_temperature.getD 25
  let w1 : ℚ := if 20 ≤ temp ∧ temp ≤ 35 then 50 else 0
  let humidity := f.avg_humidity.getD 60
  let w2 : ℚ := if 40 ≤ humidity ∧ humidity ≤ 80 then 50 else 0
  { soilMatch := round1 (min 100 soil),
    npkMatch := round1 (min 100 (npk1 + npk2 + npk3)),
    weatherMatch := round1 (min 100 (w1 + w2)),
    historicalYield := round1 70 }

/-- Probability-to-score curve of `_calculate_suitability_score_ml` for the
coarse-class (v2/v3) models. -/
def probScore (p : ℚ) : ℚ :=
  if p ≥ 0.3 then 65 + (p - 0.3) * 50
  else if p ≥ 0.15 then 50 + (p - 0.15) * 100
  else if p ≥ 0.05 then 30 + (p - 0.05) * 200
  else p * 600

/-- Embedding of `CropPredictor._calculate_suitability_score_ml` (v3 model,
`crop_idx` within range, `features` supplied): base 30 plus probability
score plus fixed temperature/humidity band bonuses, clamped to [0, 100]. -/
def mlBase (p : ℚ) (f : Feat) : ℚ :=
  let base := 30 + probScore p
  let temp := f.avg_temperature.getD 25
  let tb : ℚ := if 20 ≤ temp ∧ temp ≤ 32 then 8 else if 15 ≤ temp ∧ temp ≤ 35 then 4 else 0
  let humidity := f.avg_humidity.getD 60
  let hb : ℚ := if 50 ≤ humidity ∧ humidity ≤ 75 then 7 else if 40 ≤ humidity ∧ humidity ≤ 80 then 3 else 0
  min 100 (max 0 (base + tb + hb))

/-- Season / temperature adjustment applied to each candidate score in
`CropPredictor.predict` (lines 880-889): 25% bonus plus up-to-10 temperature
points on season match, 65% penalty on mismatch, then a 0.8 factor when
temperature suitability is below 0.5. -/
def adjustScore (isMatch : Bool) (score ts : ℚ) : ℚ :=
  let s := if isMatch then min 100 (score * 1.25) + ts * 10 else score * 0.35
  if ts < 0.5 then s * 0.8 else s

/-- One scored candidate of the model-informed pass (`all_scores` entry). -/
structure Cand where
  idx : ℕ
  cropName : String
  score : ℚ
  seasonMatch : Bool
  tempSuit : ℚ
deriving DecidableEq

/-- Ordering of the intermediate candidate sort,
`key=lambda x: (x.is_season_match, x.score), reverse=True`: `a` weakly
precedes `b` in the output.  Python's sort is stable, which for a total
preorder key determines the output uniquely; it is realized here by the
stable `List.insertionSort`. -/
def candRel (a b : Cand) : Prop :=
  (b.seasonMatch = false ∧ a.seasonMatch = true) ∨
    (b.seasonMatch = a.seasonMatch ∧ b.score ≤ a.score)

instance : DecidableRel candRel := fun a b => by unfold candRel; infer_instance

instance : IsTotal Cand candRel := by
  constructor
  intro a b
  unfold candRel
  cases ha : a.seasonMatch <;> cases hb : b.seasonMatch <;>
    rcases le_total a.score b.score with h | h <;> tauto

instance : IsTrans Cand candRel := by
  constructor
  intro a b c hab hbc
  unfold candRel at *
  rcases hab with ⟨h1, h2⟩ | ⟨h1, h2⟩
  · rcases hbc with ⟨h3, h4⟩ | ⟨h3, h4⟩
    · rw [h1] at h4; exact absurd h4 (by simp)
    · exact Or.inl ⟨h3.trans h1, h2⟩
  · rcases hbc with ⟨h3, h4⟩ | ⟨h3, h4⟩
    · exact Or.inl ⟨h3, h1 ▸ h4⟩
    · exact Or.inr ⟨h3.trans h1, le_trans h4 h2⟩

/-- Ordering of the final sort,
`key=lambda x: x.suitabilityScore, reverse=True`. -/
def recRel (a b : Rec) : Prop :=
  b.suitabilityScore ≤ a.suitabilityScore

instance : DecidableRel recRel := fun a b => by unfold recRel; infer_instance

instance : IsTotal Rec recRel :=
  ⟨fun a b => le_total b.suitabilityScore a.suitabilityScore⟩

instance : IsTrans Rec recRel :=
  ⟨fun _ _ _ hab hbc => le_trans hbc hab⟩

/-- Scored candidate built for one (index, crop label) pair in the scoring
loop of `CropPredictor.predict` (lines 864-897). -/
def mkCand (f : Feat) (seasonCrops : List String) (probs : List ℚ)
    (p : ℕ × String) : Cand :=
  let crop := p.2
  let prob := probs.getD p.1 0
  let isMatch := decide (crop ∈ seasonCrops)
  let score := mlBase prob f
  let ts := tempSuitability crop (f.avg_temperature.getD 25)
  ⟨p.1, crop, adjustScore isMatch score ts, isMatch, ts⟩

/-- Candidate list built by the scoring loop of `CropPredictor.predict`,
one entry per class index with a probability entry. -/
def mlCands (cfg : Config) (f : Feat) (seasonCrops : List String)
    (probs : List ℚ) : List Cand :=
  (cfg.cropClasses.enum.filter (fun p => decide (p.1 < probs.length))).map
    (mkCand f seasonCrops probs)

/-- Recommendation record built from a surviving candidate
(lines 903-934 of `predictor.py`). -/
def recOfCand (cfg : Config) (f : Feat) (c : Cand) : Rec :=
  { cropName := c.cropName,
    suitabilityScore := round1 c.score,
    yieldPrediction := predictYieldML cfg.cropProfiles c.cropName f,
    environmentalFactors := envFactors f,
    seasonMatch := c.seasonMatch,
    temperatureSuitability := round1 (c.tempSuit * 100) }

/-- Model-informed recommendations: candidates sorted by
(season match, score) descending, top 15 kept, scores below 30 discarded. -/
def mlRecs (cfg : Config) (f : Feat) (seasonCrops : List String)
    (probs : List ℚ) : List Rec :=
  ((((mlCands cfg f seasonCrops probs).insertionSort candRel).take 15).filter
    (fun c => decide (30 ≤ c.score))).map (recOfCand cfg f)

/-- Rule-based recommendation for one season crop
(`CropPredictor._predict_with_rules` loop body). -/
def ruleRec (f : Feat) (crop : String) : Rec :=
  let temperature := f.avg_temperature.getD 25
  let ts := tempSuitability crop temperature
  let score := 50 + ts * 40
  let baseYield := ((defaultYields.lookup crop).getD 2000) * ts
  { cropName := crop,
    suitabilityScore := round1 score,
    yieldPrediction :=
      { ymin := round0 (baseYield * 0.7),
        ymax := round0 (baseYield * 1.3),
        expected := round0 baseYield,
        unit := "kg/hectare" },
    environmentalFactors := envFactors f,
    seasonMatch := true,
    temperatureSuitability := round1 (ts * 100) }

/-- Embedding of `CropPredictor._predict_with_rules`: one record per season
crop whose score reaches 30, sorted by score descending. -/
def predictWithRules (f : Feat) (seasonCrops : List String) : List Rec :=
  ((seasonCrops.filter (fun crop =>
      decide (¬ (50 + tempSuitability crop (f.avg_temperature.getD 25) * 40 < 30)))).map
    (ruleRec f)).insertionSort recRel

/-- Supplement loop of `CropPredictor.predict` (lines 944-950): rule-based
records are appended while the list holds fewer than 5 entries, skipping
crop names already present in the model-informed result. -/
def addFrom (existing : List String) : List Rec → List Rec → List Rec
  | [], acc => acc
  | r :: rest, acc =>
    if r.cropName ∉ existing ∧ acc.length < 5 then addFrom existing rest (acc ++ [r])
    else addFrom existing rest acc

/-- Season-crop set of the current call: `_get_crops_for_season` applied to
the uppercased state/district/season of `predict` lines 840-851. -/
def seasonCropsOf (cfg : Config) (f : Feat) : List String :=
  getCropsForSeason cfg.seasonCropMap (pyUpper (f.state.getD ""))
    (pyUpper (f.district.getD "")) (pyUpper (f.season.getD "KHARIF"))

/-- Recommendations before supplementation: the model-informed pass when a
model is loaded and its probability row is produced, and the rule-based path
when there is no model or the model path raises (lines 854-942). -/
def baseRecs (cfg : Config) (f1 : Feat) (sc : List String) : List Rec :=
  if cfg.useML then
    match cfg.probs with
    | some probs => mlRecs cfg f1 sc probs
    | none => predictWithRules f1 sc
  else predictWithRules f1 sc

/-- Supplementation step of `predict` (lines 944-950). -/
def supplemented (f1 : Feat) (sc : List String) (recs0 : List Rec) : List Rec :=
  if recs0.length < 5 then
    addFrom (recs0.map (fun r => r.cropName)) (predictWithRules f1 sc) recs0
  else recs0

/-- Embedding of `CropPredictor.predict` under v3 artifacts (or no
artifacts).  Returns the recommendation list together with the caller's
feature dictionary as it stands after the call (the source mutates it
in place). -/
def predict (cfg : Config) (f : Feat) : List Rec × Feat :=
  let f1 := normalize f
  let sc := seasonCropsOf cfg f
  (((supplemented f1 sc (baseRecs cfg f1 sc)).insertionSort recRel).take 5, f1)

/-- Historical per-district crop record (`district_profiles` entry), read
through `.get` with defaults in `_predict_yield_ml`. -/
structure HistRec where
  avgYield : Option ℚ
  minYield : Option ℚ
  maxYield : Option ℚ
deriving DecidableEq

/-- Embedding of the v1/v2 tail of `CropPredictor._predict_yield_ml`
(lines 656-687): the regressor output `predictedYield` (tonnes/hectare,
after `expm1`) is blended with optional historical data and clamped. -/
def yieldBlend (predictedYield : ℚ) (historical : Option HistRec) : YieldPred :=
  let pyKg := predictedYield * 1000
  let triple : ℚ × ℚ × ℚ :=
    match historical with
    | some h =>
      let histAvg := (h.avgYield.getD predictedYield) * 1000
      let histMin := (h.minYield.getD (predictedYield * 0.7)) * 1000
      let histMax := (h.maxYield.getD (predictedYield * 1.3)) * 1000
      (0.4 * pyKg + 0.6 * histAvg, min (pyKg * 0.8) histMin, max (pyKg * 1.2) histMax)
    | none => (pyKg, pyKg * 0.8, pyKg * 1.2)
  let expected := max 100 triple.1
  let minY := max 50 triple.2.1
  let maxY := max (expected * 1.1) triple.2.2
  { ymin := round0 minY, ymax := round0 maxY, expected := round0 expected, unit := "kg/hectare" }

/-- Dynamically-typed JSON value, for modelling profile files whose entries
need not be numeric (Python raises `TypeError` only when such a value
reaches an arithmetic operation). -/
inductive JVal where
  | num : ℚ → JVal
  | str : String → JVal
deriving DecidableEq

/-- Profile entry over dynamically-typed values. -/
structure JProfile where
  yieldMean : Option JVal
  yieldStd : Option JVal
deriving DecidableEq

/-- Reading a profile value through `.get(key, default)` and then using it
arithmetically: a missing key yields the default, a numeric value itself,
and a non-numeric value a `TypeError` at the arithmetic operation. -/
def jGetNum (v : Option JVal) (dflt : ℚ) : Except String ℚ :=
  match v with
  | none => Except.ok dflt
  | some (JVal.num q) => Except.ok q
  | some (JVal.str _) => Except.error "TypeError"

/-- Embedding of `CropPredictorV3._predict_yield` over dynamically-typed
profile values.  The function body has no exception handler, so a raised
`TypeError` propagates to the caller: the result is `Except`. -/
def predictYieldV3Dyn (profiles : List (String × List (String × JProfile)))
    (crop : String) (f : Feat) : Except String YieldPred :=
  let state := pyUpper (f.state.getD "")
  let district := pyUpper (f.district.getD "")
  let season := pyUpper (f.season.getD "KHARIF")
  let key := pyUpper (state ++ "_" ++ district ++ "_" ++ season)
  match (profiles.lookup key).bind (fun m => m.lookup crop) with
  | some prof => do
    let yieldMean ← jGetNum prof.yieldMean 2000
    let tempMult := tempSuitability crop (f.avg_temperature.getD 25)
    let expected := yieldMean * tempMult
    let yieldStd ← jGetNum prof.yieldStd 500
    pure { ymin := round0 (max 100 (expected - yieldStd)),
           ymax := round0 (expected + yieldStd),
           expected := round0 expected,
           unit := "kg/hectare" }
  | none =>
    let baseYield := (defaultYields.lookup crop).getD 2000
    let tempMult := tempSuitability crop (f.avg_temperature.getD 25)
    let expected := baseYield * tempMult
    pure { ymin := round0 (expected * 0.7),
           ymax := round0 (expected * 1.3),
           expected := round0 expected,
           unit := "kg/hectare" }

/-- Body of the v3 branch of `CropPredictor._predict_yield_ml` over
dynamically-typed profile values, before the surrounding `try` (that
function's temperature default is 28.0). -/
def predictYieldMLDynCore (profiles : List (String × List (String × JProfile)))
    (crop : String) (f : Feat) : Except String YieldPred :=
  let state := pyUpper (f.state.getD "")
  let district := pyUpper (f.district.getD "")
  let season := pyUpper (f.season.getD "KHARIF")
  let temperature := f.avg_temperature.getD 28
  let key := pyUpper (state ++ "_" ++ district ++ "_" ++ season)
  match (profiles.lookup key).bind (fun m => m.lookup crop) with
  | some prof => do
    let yieldMean ← jGetNum prof.yieldMean 2000
    let tempSuit := tempSuitability crop temperature
    let expected := yieldMean * tempSuit
    let yieldStd ← jGetNum prof.yieldStd 500
    pure { ymin := round0 (max 100 (expected - yieldStd)),
           ymax := round0 (expected + yieldStd),
           expected := round0 expected,
           unit := "kg/hectare" }
  | none =>
    let baseYield := (defaultYields.lookup crop).getD 2000
    let tempSuit := tempSuitability crop temperature
    let expected := baseYield * tempSuit
    pure { ymin := round0 (expected * 0.7),
           ymax := round0 (expected * 1.3),
           expected := round0 expected,
           unit := "kg/hectare" }

/-- Embedding of `CropPredictor._predict_yield_ml` (v3 branch) including its
`try`/`except`: any exception inside the body is caught and the hardcoded
safe default is returned. -/
def predictYieldMLDyn (profiles : List (String × List (String × JProfile)))
    (crop : String) (f : Feat) : YieldPred :=
  match predictYieldMLDynCore profiles crop f with
  | Except.ok y => y
  | Except.error _ => { ymin := 1000, ymax := 3000, expected := 2000, unit := "kg/hectare" }

theorem probScore_nonneg {p : ℚ} (hp : 0 ≤ p) : 0 ≤ probScore p := by
  unfold probScore
  split_ifs <;> nlinarith

theorem mlBase_le_100 (p : ℚ) (f : Feat) : mlBase p f ≤ 100 := by
  simp only [mlBase]
  exact min_le_left _ _

theorem mlBase_nonneg (p : ℚ) (f : Feat) : 0 ≤ mlBase p f := by
  simp only [mlBase]
  exact le_min (by norm_num) (le_max_left _ _)

theorem mlBase_ge_30 {p : ℚ} (hp : 0 ≤ p) (f : Feat) : 30 ≤ mlBase p f := by
  have hps := probScore_nonneg hp
  simp only [mlBase]
  split_ifs <;>
    refine le_min (by norm_num) (le_trans (by linarith) (le_max_right _ _))

theorem adjustScore_nonneg {s ts : ℚ} (hs : 0 ≤ s) (hts : 0 ≤ ts) (m : Bool) :
    0 ≤ adjustScore m s ts := by
  have h1 : (0:ℚ) ≤ min 100 (s * 1.25) := le_min (by norm_num) (by nlinarith)
  cases m <;>
    simp only [adjustScore, Bool.false_eq_true, if_false, if_true] <;>
    split_ifs <;> nlinarith

theorem adjustScore_le_110 {s ts : ℚ} (hs0 : 0 ≤ s) (hs : s ≤ 100)
    (_hts0 : 0 ≤ ts) (hts : ts ≤ 1) (m : Bool) : adjustScore m s ts ≤ 110 := by
  have h1 : (0:ℚ) ≤ min 100 (s * 1.25) := le_min (by norm_num) (by nlinarith)
  have h2 : min 100 (s * 1.25) ≤ 100 := min_le_left _ _
  cases m <;>
    simp only [adjustScore, Bool.false_eq_true, if_false, if_true] <;>
    split_ifs <;> nlinarith

theorem adjustScore_mismatch_lt {s ts : ℚ} (h30 : 30 ≤ s) (h100 : s ≤ 100)
    (hts : 0 ≤ ts) : adjustScore false s ts < adjustScore true s ts := by
  have hmin : (37.5:ℚ) ≤ min 100 (s * 1.25) := le_min (by norm_num) (by nlinarith)
  have hkey : s * 0.35 < min 100 (s * 1.25) + ts * 10 := by nlinarith
  simp only [adjustScore, Bool.false_eq_true, if_false, if_true]
  split_ifs with h
  · nlinarith
  · exact hkey

theorem mem_mlCands {cfg : Config} {f : Feat} {sc : List String} {probs : List ℚ}
    {c : Cand} (h : c ∈ mlCands cfg f sc probs) :
    ∃ i crop,
      c = ⟨i, crop,
        adjustScore (decide (crop ∈ sc)) (mlBase (probs.getD i 0) f)
          (tempSuitability crop (f.avg_temperature.getD 25)),
        decide (crop ∈ sc),
        tempSuitability crop (f.avg_temperature.getD 25)⟩ := by
  unfold mlCands at h
  rcases List.mem_map.mp h with ⟨p, _, rfl⟩
  exact ⟨p.1, p.2, rfl⟩

theorem mem_mlRecs {cfg : Config} {f : Feat} {sc : List String} {probs : List ℚ}
    {r : Rec} (h : r ∈ mlRecs cfg f sc probs) :
    ∃ c ∈ mlCands cfg f sc probs, 30 ≤ c.score ∧ r = recOfCand cfg f c := by
  unfold mlRecs at h
  rcases List.mem_map.mp h with ⟨c, hc, rfl⟩
  have hscore : 30 ≤ c.score := by
    have := List.of_mem_filter hc
    exact of_decide_eq_true this
  have hc1 : c ∈ ((mlCands cfg f sc probs).insertionSort candRel).take 15 :=
    List.mem_of_mem_filter hc
  have hc2 : c ∈ (mlCands cfg f sc probs).insertionSort candRel :=
    List.mem_of_mem_take hc1
  exact ⟨c, (List.mem_insertionSort _).mp hc2, hscore, rfl⟩

theorem mem_predictWithRules {f : Feat} {sc : List String} {r : Rec}
    (h : r ∈ predictWithRules f sc) : ∃ crop ∈ sc, r = ruleRec f crop := by
  unfold predictWithRules at h
  have h1 := (List.mem_insertionSort _).mp h
  rcases List.mem_map.mp h1 with ⟨crop, hcrop, rfl⟩
  exact ⟨crop, List.mem_of_mem_filter hcrop, rfl⟩

theorem mem_addFrom {existing : List String} :
    ∀ {rest acc : List Rec} {r : Rec}, r ∈ addFrom existing rest acc →
      r ∈ acc ∨ r ∈ rest := by
  intro rest
  induction rest with
  | nil => intro acc r h; exact Or.inl h
  | cons x rest ih =>
    intro acc r h
    unfold addFrom at h
    split_ifs at h with hc
    · rcases ih h with hacc | hrest
      · rcases List.mem_append.mp hacc with h1 | h2
        · exact Or.inl h1
        · exact Or.inr (List.mem_cons.mpr (Or.inl (List.mem_singleton.mp h2)))
      · exact Or.inr (List.mem_cons_of_mem _ hrest)
    · rcases ih h with hacc | hrest
      · exact Or.inl hacc
      · exact Or.inr (List.mem_cons_of_mem _ hrest)

theorem mem_supplemented {f1 : Feat} {sc : List String} {recs0 : List Rec} {r : Rec}
    (h : r ∈ supplemented f1 sc recs0) : r ∈ recs0 ∨ r ∈ predictWithRules f1 sc := by
  unfold supplemented at h
  split_ifs at h
  · exact mem_addFrom h
  · exact Or.inl h

theorem ruleRec_score_bounds (f : Feat) (crop : String) :
    50 ≤ (ruleRec f crop).suitabilityScore ∧ (ruleRec f crop).suitabilityScore ≤ 90 := by
  have hb := tempSuitability_bounds crop (f.avg_temperature.getD 25)
  simp only [ruleRec]
  constructor
  · exact le_round1_of_le 50 (by push_cast; nlinarith [hb.1])
  · exact round1_le_of_le 90 (by push_cast; nlinarith [hb.2])

theorem mlRec_score_bounds {cfg : Config} {f : Feat} {sc : List String}
    {probs : List ℚ} {c : Cand} (hc : c ∈ mlCands cfg f sc probs) :
    0 ≤ (recOfCand cfg f c).suitabilityScore ∧
      (recOfCand cfg f c).suitabilityScore ≤ 110 := by
  rcases mem_mlCands hc with ⟨i, crop, rfl⟩
  have hts := tempSuitability_bounds crop (f.avg_temperature.getD 25)
  have h0 := mlBase_nonneg (probs.getD i 0) f
  have h100 := mlBase_le_100 (probs.getD i 0) f
  have hadj0 := adjustScore_nonneg h0 (le_trans (by norm_num) hts.1) (decide (crop ∈ sc))
  have hadj1 := adjustScore_le_110 h0 h100 (le_trans (by norm_num) hts.1) hts.2
    (decide (crop ∈ sc))
  simp only [recOfCand]
  constructor
  · exact le_round1_of_le 0 (by push_cast; linarith)
  · exact round1_le_of_le 110 (by push_cast; linarith)

theorem normalize_normalize (f : Feat) : normalize (normalize f) = normalize f := by
  simp [normalize, pyUpper_idem]

theorem seasonCropsOf_normalize (cfg : Config) (f : Feat) :
    seasonCropsOf cfg (normalize f) = seasonCropsOf cfg f := by
  simp [seasonCropsOf, normalize, pyUpper_idem]

theorem seasonCrops_nodup (m : List (String × List (String × List String)))
    (state district season : String) :
    (getCropsForSeason m state district season).Nodup := by
  unfold getCropsForSeason
  exact List.nodup_dedup _

theorem names_map_eq {α : Type} (g : α → Rec) (pr : α → String)
    (hg : ∀ a, (g a).cropName = pr a) (l : List α) :
    (l.map g).map (fun r => r.cropName) = l.map pr := by
  rw [List.map_map]
  exact List.map_congr_left (fun a _ => hg a)

theorem mlRecs_names_nodup {cfg : Config} (f : Feat) (sc : List String)
    (probs : List ℚ) (hcc : cfg.cropClasses.Nodup) :
    ((mlRecs cfg f sc probs).map (fun r => r.cropName)).Nodup := by
  have hcands : ((mlCands cfg f sc probs).map (fun c => c.cropName)).Nodup := by
    unfold mlCands
    have heq : ((cfg.cropClasses.enum.filter
        (fun p => decide (p.1 < probs.length))).map (mkCand f sc probs)).map
        (fun c => c.cropName) =
        (cfg.cropClasses.enum.filter (fun p => decide (p.1 < probs.length))).map
          Prod.snd := by
      rw [List.map_map]
      exact List.map_congr_left (fun a _ => rfl)
    rw [heq]
    have he : List.Sublist
        ((cfg.cropClasses.enum.filter (fun p => decide (p.1 < probs.length))).map Prod.snd)
        (cfg.cropClasses.enum.map Prod.snd) :=
      (List.filter_sublist _).map Prod.snd
    rw [List.enum_map_snd] at he
    exact hcc.sublist he
  have hsorted : (((mlCands cfg f sc probs).insertionSort candRel).map
      (fun c => c.cropName)).Nodup :=
    (((List.perm_insertionSort candRel _).map _).nodup_iff).mpr hcands
  have htake : ((((mlCands cfg f sc probs).insertionSort candRel).take 15).map
      (fun c => c.cropName)).Nodup :=
    hsorted.sublist ((List.take_sublist _ _).map _)
  have hfilter : (((((mlCands cfg f sc probs).insertionSort candRel).take 15).filter
      (fun c => decide (30 ≤ c.score))).map (fun c => c.cropName)).Nodup :=
    htake.sublist ((List.filter_sublist _).map _)
  unfold mlRecs
  rw [names_map_eq (recOfCand cfg f) (fun c => c.cropName) (fun a => rfl)]
  exact hfilter

theorem predictWithRules_names_nodup (f : Feat) {sc : List String} (hsc : sc.Nodup) :
    ((predictWithRules f sc).map (fun r => r.cropName)).Nodup := by
  unfold predictWithRules
  have hbase : (((sc.filter (fun crop =>
      decide (¬ (50 + tempSuitability crop (f.avg_temperature.getD 25) * 40 < 30)))).map
      (ruleRec f)).map (fun r => r.cropName)).Nodup := by
    rw [names_map_eq (ruleRec f) id (fun a => rfl), List.map_id]
    exact hsc.sublist (List.filter_sublist _)
  exact (((List.perm_insertionSort recRel _).map _).nodup_iff).mpr hbase

theorem addFrom_names_nodup (existing : List String) :
    ∀ (rest acc : List Rec),
      (acc.map (fun r => r.cropName)).Nodup →
      (rest.map (fun r => r.cropName)).Nodup →
      (∀ r ∈ rest, r.cropName ∈ acc.map (fun r => r.cropName) → r.cropName ∈ existing) →
      ((addFrom existing rest acc).map (fun r => r.cropName)).Nodup := by
  intro rest
  induction rest with
  | nil => intro acc hacc _ _; exact hacc
  | cons x rest ih =>
    intro acc hacc hrest hcl
    rw [List.map_cons] at hrest
    have hxrest : x.cropName ∉ rest.map (fun r => r.cropName) :=
      (List.nodup_cons.mp hrest).1
    have hrest2 : (rest.map (fun r => r.cropName)).Nodup :=
      (List.nodup_cons.mp hrest).2
    unfold addFrom
    split_ifs with hcond
    · apply ih
      · rw [List.map_append]
        refine List.Nodup.append hacc (by simp) ?_
        intro a ha
        simp only [List.map_cons, List.map_nil, List.mem_singleton]
        intro hax
        subst hax
        exact hcond.1 (hcl x (List.mem_cons_self _ _) ha)
      · exact hrest2
      · intro r hr hmem
        rw [List.map_append] at hmem
        rcases List.mem_append.mp hmem with h1 | h2
        · exact hcl r (List.mem_cons_of_mem _ hr) h1
        · exfalso
          simp only [List.map_cons, List.map_nil, List.mem_singleton] at h2
          exact hxrest (h2 ▸ List.mem_map_of_mem (fun r => r.cropName) hr)
    · exact ih acc hacc hrest2 (fun r hr => hcl r (List.mem_cons_of_mem _ hr))

theorem tempSuitability_of_some {crop : String} {tmin tmax : ℚ}
    (hl : cropTempRanges.lookup crop = some (tmin, tmax)) (t : ℚ) :
    tempSuitability crop t =
      if tmin ≤ t ∧ t ≤ tmax then
        1.0 - (|t - (tmin + tmax) / 2| / ((tmax - tmin) / 2)) * 0.2
      else if t < tmin then max 0.2 (0.8 - (tmin - t) * 0.05)
      else max 0.2 (0.8 - (t - tmax) * 0.05) := by
  unfold tempSuitability
  rw [hl]

theorem tempSuitability_of_none {crop : String}
    (hl : cropTempRanges.lookup crop = none) (t : ℚ) :
    tempSuitability crop t = 0.7 := by
  unfold tempSuitability
  rw [hl]

/-- Configuration with no trained artifacts: the loader found no classifier
file, so `use_ml_model` is false and all lookup tables are empty. -/
def rulesConfig : Config := ⟨false, none, [], [], []⟩

/-- Scenario input of §8 of the spec:
PUNJAB / LUDHIANA / RABI, 20 °C, nitrogen 120. -/
def punjabRabiInput : Feat :=
  { Feat.empty with
    state := some "PUNJAB"
    district := some "LUDHIANA"
    season := some "RABI"
    avg_temperature := some 20
    soil_nitrogen := some 120 }

/-- Loaded v3 model with a single class `CEREALS_RICE` to which the frozen
classifier assigns probability 1. -/
def overflowConfig : Config := ⟨true, some [1], ["CEREALS_RICE"], [], []⟩

/-- Input at the rice temperature optimum (27.5 °C) with in-band humidity. -/
def overflowInput : Feat :=
  { Feat.empty with avg_temperature := some (55/2), avg_humidity := some 60 }

/-- Loaded v3 model with classes wheat (probability 0) and rice
(probability 1). -/
def mixedConfig : Config :=
  ⟨true, some [0, 1], ["CEREALS_WHEAT", "CEREALS_RICE"], [], []⟩

/-- A RABI call at 36 °C with out-of-band humidity: wheat is season-matched
but scores low, rice is season-mismatched but scores higher. -/
def mixedInput : Feat :=
  { Feat.empty with
    season := some "RABI"
    avg_temperature := some 36
    avg_humidity := some 30 }

/-- Input whose state key holds a lowercase value. -/
def lowercaseInput : Feat := { Feat.empty with state := some "punjab" }

/-- Profile table holding one yield profile with a small historical mean
(50 kg/ha) and zero deviation. -/
def smallProfileTable : List (String × List (String × CropProfile)) :=
  [("PUNJAB_LUDHIANA_RABI", [("CEREALS_WHEAT", ⟨some 50, some 0⟩)])]

/-- Input matching `smallProfileTable`, at the wheat temperature optimum. -/
def smallProfileInput : Feat :=
  { Feat.empty with
    state := some "PUNJAB"
    district := some "LUDHIANA"
    season := some "RABI"
    avg_temperature := some (35/2) }

/-- Profile table whose `yield_mean` entry holds a string instead of a
number. -/
def badProfileTable : List (String × List (String × JProfile)) :=
  [("PUNJAB_LUDHIANA_RABI", [("CEREALS_WHEAT", ⟨some (JVal.str "missing"), none⟩)])]

/-- C2: for every crop category with a defined temperature range
[tmin, tmax] and every temperature t, `_calculate_temp_suitability` returns
1 − 0.2·(|t−mid|/half-width) inside the range (hence at least 0.8, and
exactly 1 at the midpoint), max(0.2, 0.8 − 0.05·deficit) below it,
max(0.2, 0.8 − 0.05·excess) above it, and the constant 0.7 for categories
absent from the table. -/
theorem c2_temp_suitability_formula (crop : String) (t : ℚ) :
    (∀ tmin tmax, cropTempRanges.lookup crop = some (tmin, tmax) →
      ((tmin ≤ t ∧ t ≤ tmax →
          tempSuitability crop t =
            1 - 0.2 * (|t - (tmin + tmax) / 2| / ((tmax - tmin) / 2)) ∧
          0.8 ≤ tempSuitability crop t ∧
          (t = (tmin + tmax) / 2 → tempSuitability crop t = 1)) ∧
        (t < tmin →
          tempSuitability crop t = max 0.2 (0.8 - 0.05 * (tmin - t))) ∧
        (tmax < t →
          tempSuitability crop t = max 0.2 (0.8 - 0.05 * (t - tmax))))) ∧
    (cropTempRanges.lookup crop = none → tempSuitability crop t = 0.7) := by
  constructor
  · intro tmin tmax hl
    have hlt : tmin < tmax := cropTempRanges_lt hl
    have hw : (0:ℚ) < (tmax - tmin) / 2 := by linarith
    refine ⟨?_, ?_, ?_⟩
    · intro hin
      have heq := tempSuitability_of_some hl t
      rw [if_pos hin] at heq
      refine ⟨by rw [heq]; ring, ?_, ?_⟩
      · rw [heq]
        have habs : |t - (tmin + tmax) / 2| ≤ (tmax - tmin) / 2 := by
          rw [abs_le]; constructor <;> linarith [hin.1, hin.2]
        have hd1 : |t - (tmin + tmax) / 2| / ((tmax - tmin) / 2) ≤ 1 :=
          (div_le_one hw).mpr habs
        nlinarith
      · intro hmid
        rw [heq, hmid]
        simp
        norm_num
    · intro hbelow
      have heq := tempSuitability_of_some hl t
      rw [if_neg (by intro hc; linarith [hc.1]), if_pos hbelow] at heq
      rw [heq, mul_comm]
    · intro habove
      have heq := tempSuitability_of_some hl t
      rw [if_neg (by intro hc; linarith [hc.2]),
        if_neg (by intro hc; linarith)] at heq
      rw [heq, mul_comm]
  · intro hl
    exact tempSuitability_of_none hl t

/-- Witness for C2: wheat at the midpoint of its (10, 25) range scores
exactly 1, and an unknown category scores 0.7. -/
theorem c2_temp_suitability_witness :
    tempSuitability "CEREALS_WHEAT" (35/2) = 1 ∧
      tempSuitability "SOME_OTHER_CATEGORY" 99 = 0.7 := by
  constructor
  · exact (((c2_temp_suitability_formula "CEREALS_WHEAT" (35/2)).1 10 25
      (by decide)).1 (by norm_num)).2.2 (by norm_num)
  · exact (c2_temp_suitability_formula "SOME_OTHER_CATEGORY" 99).2 (by decide)

/-- C5: for the same candidate (same class probability, temperature and
other inputs), the score computed with season mismatch is strictly below
the score computed with season match — the scoring-loop adjustment of
`CropPredictor.predict` applies a factor strictly damping mismatches. -/
theorem c5_season_mismatch_strictly_lower (crop : String) (t : ℚ) (f : Feat)
    {p : ℚ} (hp : 0 ≤ p) :
    adjustScore false (mlBase p f) (tempSuitability crop t) <
      adjustScore true (mlBase p f) (tempSuitability crop t) :=
  adjustScore_mismatch_lt (mlBase_ge_30 hp f) (mlBase_le_100 p f)
    (le_trans (by norm_num) (tempSuitability_bounds crop t).1)

/-- Witness for C5 at rice, 30 °C, probability 1/2. -/
theorem c5_season_mismatch_witness :
    adjustScore false (mlBase (1/2) Feat.empty) (tempSuitability "CEREALS_RICE" 30) <
      adjustScore true (mlBase (1/2) Feat.empty) (tempSuitability "CEREALS_RICE" 30) :=
  c5_season_mismatch_strictly_lower "CEREALS_RICE" 30 Feat.empty (by norm_num)

theorem rec_bounds_of_rules {f1 : Feat} {sc : List String} {r : Rec}
    (h : r ∈ predictWithRules f1 sc) :
    0 ≤ r.suitabilityScore ∧ r.suitabilityScore ≤ 110 := by
  rcases mem_predictWithRules h with ⟨crop, _, rfl⟩
  have hb := ruleRec_score_bounds f1 crop
  exact ⟨le_trans (by norm_num) hb.1, le_trans hb.2 (by norm_num)⟩

theorem rec_bounds_of_base {cfg : Config} {f1 : Feat} {sc : List String} {r : Rec}
    (h : r ∈ baseRecs cfg f1 sc) :
    0 ≤ r.suitabilityScore ∧ r.suitabilityScore ≤ 110 := by
  unfold baseRecs at h
  split_ifs at h with huse
  · cases hp : cfg.probs with
    | none =>
      rw [hp] at h
      exact rec_bounds_of_rules h
    | some probs =>
      rw [hp] at h
      rcases mem_mlRecs h with ⟨c, hc, _, rfl⟩
      exact mlRec_score_bounds hc
  · exact rec_bounds_of_rules h

/-- Counterexample for C1: with a loaded v3 model assigning probability 1
to `CEREALS_RICE` and the temperature at the rice optimum, the returned
recommendation carries suitability score 110, outside [0, 100]. -/
theorem c1_score_exceeds_100 :
    ¬ (∀ r ∈ (predict overflowConfig overflowInput).1,
        0 ≤ r.suitabilityScore ∧ r.suitabilityScore ≤ 100) := by
  decide

/-- C1 as amended: for every configuration and FeatureInput the returned
list has length at most 5, and every entry's suitability score lies in
[0, 110] (the season-match bonus `+ temp_suit * 10` is applied after the
clamp to 100, so scores up to 110 escape). -/
theorem c1_output_len_and_score_bounds (cfg : Config) (f : Feat) :
    (predict cfg f).1.length ≤ 5 ∧
      ∀ r ∈ (predict cfg f).1,
        0 ≤ r.suitabilityScore ∧ r.suitabilityScore ≤ 110 := by
  constructor
  · simp only [predict]
    rw [List.length_take]
    exact min_le_left _ _
  · intro r hr
    simp only [predict] at hr
    have hr1 : r ∈ supplemented (normalize f) (seasonCropsOf cfg f)
        (baseRecs cfg (normalize f) (seasonCropsOf cfg f)) :=
      (List.mem_insertionSort recRel).mp (List.mem_of_mem_take hr)
    rcases mem_supplemented hr1 with h0 | hrules
    · exact rec_bounds_of_base h0
    · exact rec_bounds_of_rules hrules

/-- Witness for C1 as amended, at the no-artifact configuration: the
maize rule-based record is in the returned list and its score is in
[0, 110]. -/
theorem c1_output_bounds_witness :
    0 ≤ (ruleRec (normalize Feat.empty) "CEREALS_MAIZE").suitabilityScore ∧
      (ruleRec (normalize Feat.empty) "CEREALS_MAIZE").suitabilityScore ≤ 110 :=
  (c1_output_len_and_score_bounds rulesConfig Feat.empty).2 _ (by decide)

/-- Counterexample for C3: the final returned list is not ordered with
season-matched entries first — a mismatched rice entry (score 35) precedes
the matched wheat entry (score 32). -/
theorem c3_final_sort_ignores_season :
    ¬ ((predict mixedConfig mixedInput).1.Pairwise
        (fun a b => b.seasonMatch = true → a.seasonMatch = true)) := by
  decide

/-- C3 as amended: the final returned list is sorted by suitability score
descending only (stable in insertion order); the (season-match, score)
ordering is applied to the intermediate candidate ranking, not re-applied
to the final list. -/
theorem c3_final_sorted_by_score (cfg : Config) (f : Feat) :
    (predict cfg f).1.Pairwise
      (fun a b => b.suitabilityScore ≤ a.suitabilityScore) := by
  have hs : ((supplemented (normalize f) (seasonCropsOf cfg f)
      (baseRecs cfg (normalize f) (seasonCropsOf cfg f))).insertionSort
        recRel).Pairwise recRel :=
    List.sorted_insertionSort recRel _
  exact List.Pairwise.sublist (List.take_sublist 5 _) hs

/-- Counterexample for C6: `predict` writes the uppercased state back into
the caller's FeatureInput mapping, so a lowercase state value is mutated. -/
theorem c6_predict_mutates_input :
    (predict rulesConfig lowercaseInput).2.state = some "PUNJAB" ∧
      (predict rulesConfig lowercaseInput).2 ≠ lowercaseInput := by
  decide

/-- C6 as amended: `predict` overwrites exactly the state, district and
season keys of the caller's mapping with their uppercased (or default)
values and leaves every other key and value unchanged. -/
theorem c6_mutation_frame (cfg : Config) (f : Feat) :
    (predict cfg f).2 =
      { f with
        state := some (pyUpper (f.state.getD ""))
        district := some (pyUpper (f.district.getD ""))
        season := some (pyUpper (f.season.getD "KHARIF")) } := rfl

/-- C8: with no trained artifacts, the PUNJAB/LUDHIANA/RABI/20 °C scenario
returns only RABI default categories, each with a
temperature-suitability-derived score in [50, 90]. -/
theorem c8_rabi_scenario :
    (predict rulesConfig punjabRabiInput).1.length = 5 ∧
      (predict rulesConfig punjabRabiInput).1.Forall
        (fun r => r.cropName ∈ defaultSeasonCrops "RABI" ∧
          50 ≤ r.suitabilityScore ∧ r.suitabilityScore ≤ 90) := by
  decide

/-- C10: calling `predict` twice in sequence on the caller's same mapping
(whose categorical keys the first call normalized in place) returns the
identical recommendation list and leaves the mapping unchanged — the
pipeline is a deterministic, idempotent function of the loaded artifacts
and the input. -/
theorem c10_predict_idempotent (cfg : Config) (f : Feat) :
    predict cfg (predict cfg f).2 = predict cfg f := by
  show predict cfg (normalize f) = predict cfg f
  unfold predict
  rw [normalize_normalize, seasonCropsOf_normalize]

theorem defaultYields_getD_ge (crop : String) :
    500 ≤ (defaultYields.lookup crop).getD 2000 := by
  cases hl : defaultYields.lookup crop with
  | none => norm_num
  | some v =>
    have hm := lookup_mem hl
    have hall : ∀ p ∈ defaultYields, 500 ≤ p.2 := by decide
    simpa using hall _ hm

theorem profileYield_bounds (prof : CropProfile) (crop : String) (temperature : ℚ)
    (hstd : 0 ≤ prof.yieldStd.getD 500) :
    50 ≤ (profileYield prof crop temperature).ymin ∧
      (profileYield prof crop temperature).expected ≤
        (profileYield prof crop temperature).ymax := by
  simp only [profileYield]
  constructor
  · exact le_round0_of_le 50 (le_trans (by norm_num) (le_max_left _ _))
  · exact round0_mono (by nlinarith)

theorem categoryDefaultYield_bounds (crop : String) (temperature : ℚ) :
    50 ≤ (categoryDefaultYield crop temperature).ymin ∧
      (categoryDefaultYield crop temperature).expected ≤
        (categoryDefaultYield crop temperature).ymax ∧
      100 ≤ (categoryDefaultYield crop temperature).expected := by
  have hy := defaultYields_getD_ge crop
  have hts := tempSuitability_bounds crop temperature
  have he : 100 ≤ (defaultYields.lookup crop).getD 2000 * tempSuitability crop temperature := by
    nlinarith [hts.1]
  simp only [categoryDefaultYield]
  refine ⟨le_round0_of_le 50 (by nlinarith), round0_mono (by nlinarith), le_round0_of_le 100 he⟩

/-- Condition that every loaded yield profile carries a nonnegative
standard deviation (historical standard deviations are nonnegative). -/
def profileStdNonneg (profiles : List (String × List (String × CropProfile))) : Prop :=
  ∀ kv ∈ profiles, ∀ cp ∈ kv.2, 0 ≤ cp.2.yieldStd.getD 500

/-- Counterexample for C4: a yield profile with historical mean 50 kg/ha
produces a profile-based estimate with expected = 50 < 100 (the claim's
lower bound on `expected` fails on the profile path). -/
theorem c4_profile_expected_below_100 :
    (predictYieldV3 smallProfileTable "CEREALS_WHEAT" smallProfileInput).expected = 50 ∧
      ¬ (100 ≤ (predictYieldV3 smallProfileTable "CEREALS_WHEAT"
          smallProfileInput).expected) := by
  decide

/-- C4 as amended: every yield estimate has min ≥ 50, and max ≥ expected
whenever profile standard deviations are nonnegative; expected ≥ 100 holds
on the rule-based default path (no profile found) and on the
model-based-with-blend path, but the profile-based path guarantees only
expected = mean × temperature suitability, which can fall below 100. -/
theorem c4_yield_bounds :
    (∀ profiles crop f, profileStdNonneg profiles →
      50 ≤ (predictYieldV3 profiles crop f).ymin ∧
        (predictYieldV3 profiles crop f).expected ≤
          (predictYieldV3 profiles crop f).ymax) ∧
    (∀ crop f, 100 ≤ (predictYieldV3 [] crop f).expected) ∧
    (∀ py hist, 100 ≤ (yieldBlend py hist).expected ∧
      50 ≤ (yieldBlend py hist).ymin ∧
      (yieldBlend py hist).expected ≤ (yieldBlend py hist).ymax) := by
  refine ⟨?_, ?_, ?_⟩
  · intro profiles crop f hstd
    unfold predictYieldV3
    split
    · rename_i prof heq
      rcases Option.bind_eq_some.mp heq with ⟨m, hm1, hm2⟩
      have hkv := lookup_mem hm1
      have hcp := lookup_mem hm2
      exact profileYield_bounds prof crop _ (hstd _ hkv _ hcp)
    · have h := categoryDefaultYield_bounds crop (f.avg_temperature.getD 25)
      exact ⟨h.1, h.2.1⟩
  · intro crop f
    exact (categoryDefaultYield_bounds crop (f.avg_temperature.getD 25)).2.2
  · intro py hist
    cases hist with
    | none =>
      simp only [yieldBlend]
      refine ⟨le_round0_of_le 100 (le_max_left _ _),
        le_round0_of_le 50 (le_max_left _ _), round0_mono ?_⟩
      have h100 : (100:ℚ) ≤ max 100 (py * 1000) := le_max_left _ _
      calc max 100 (py * 1000) ≤ max 100 (py * 1000) * 1.1 := by nlinarith
        _ ≤ max (max 100 (py * 1000) * 1.1) (py * 1000 * 1.2) := le_max_left _ _
    | some h =>
      simp only [yieldBlend]
      refine ⟨le_round0_of_le 100 (le_max_left _ _),
        le_round0_of_le 50 (le_max_left _ _), round0_mono ?_⟩
      have h100 : (100:ℚ) ≤ max 100 (0.4 * (py * 1000) + 0.6 * (h.avgYield.getD py * 1000)) :=
        le_max_left _ _
      calc max 100 (0.4 * (py * 1000) + 0.6 * (h.avgYield.getD py * 1000))
          ≤ max 100 (0.4 * (py * 1000) + 0.6 * (h.avgYield.getD py * 1000)) * 1.1 := by
            nlinarith
        _ ≤ max (max 100 (0.4 * (py * 1000) + 0.6 * (h.avgYield.getD py * 1000)) * 1.1)
            (max (py * 1000 * 1.2) (h.maxYield.getD (py * 1.3) * 1000)) := le_max_left _ _

/-- Witness for C4 as amended: the small-profile estimate respects the
min and max bounds, and a blend estimate at regressor output 2 t/ha has
expected ≥ 100. -/
theorem c4_yield_bounds_witness :
    (50 ≤ (predictYieldV3 smallProfileTable "CEREALS_WHEAT" smallProfileInput).ymin ∧
      (predictYieldV3 smallProfileTable "CEREALS_WHEAT" smallProfileInput).expected ≤
        (predictYieldV3 smallProfileTable "CEREALS_WHEAT" smallProfileInput).ymax) ∧
      100 ≤ (yieldBlend 2 none).expected :=
  ⟨c4_yield_bounds.1 smallProfileTable "CEREALS_WHEAT" smallProfileInput
    (by unfold profileStdNonneg; decide),
    (c4_yield_bounds.2.2 2 none).1⟩

/-- Counterexample for C7: `CropPredictorV3._predict_yield` has no
exception handler — with a non-numeric `yield_mean` profile value the
`TypeError` propagates to the caller instead of degrading to the safe
default. -/
theorem c7_v3_yield_error_propagates :
    predictYieldV3Dyn badProfileTable "CEREALS_WHEAT" smallProfileInput =
      Except.error "TypeError" := by
  rfl

/-- C7 as amended: `CropPredictor._predict_yield_ml` wraps its whole body
in try/except, so whenever the body raises, the hardcoded safe default
(min 1000, max 3000, expected 2000, kg/hectare) is returned; the unguarded
`CropPredictorV3._predict_yield` propagates such exceptions. -/
theorem c7_ml_yield_catches (profiles : List (String × List (String × JProfile)))
    (crop : String) (f : Feat) (e : String)
    (h : predictYieldMLDynCore profiles crop f = Except.error e) :
    predictYieldMLDyn profiles crop f =
      { ymin := 1000, ymax := 3000, expected := 2000, unit := "kg/hectare" } := by
  unfold predictYieldMLDyn
  rw [h]

/-- Witness for C7 as amended at the non-numeric profile. -/
theorem c7_ml_yield_catches_witness :
    predictYieldMLDyn badProfileTable "CEREALS_WHEAT" smallProfileInput =
      { ymin := 1000, ymax := 3000, expected := 2000, unit := "kg/hectare" } :=
  c7_ml_yield_catches badProfileTable "CEREALS_WHEAT" smallProfileInput "TypeError"
    (by rfl)

/-- C9: the returned recommendation list never contains the same crop
category twice — with distinct model class labels, the model-informed
entries are distinct and the supplement loop skips crop names already
present. -/
theorem c9_output_names_nodup (cfg : Config) (f : Feat)
    (hcc : cfg.cropClasses.Nodup) :
    ((predict cfg f).1.map (fun r => r.cropName)).Nodup := by
  have hscn : (seasonCropsOf cfg f).Nodup := by
    unfold seasonCropsOf
    exact seasonCrops_nodup _ _ _ _
  have hbase : ((baseRecs cfg (normalize f) (seasonCropsOf cfg f)).map
      (fun r => r.cropName)).Nodup := by
    unfold baseRecs
    split_ifs
    · rcases hp : cfg.probs with _ | probs
      · exact predictWithRules_names_nodup _ hscn
      · exact mlRecs_names_nodup _ _ probs hcc
    · exact predictWithRules_names_nodup _ hscn
  have hsupp : ((supplemented (normalize f) (seasonCropsOf cfg f)
      (baseRecs cfg (normalize f) (seasonCropsOf cfg f))).map
      (fun r => r.cropName)).Nodup := by
    unfold supplemented
    split_ifs
    · exact addFrom_names_nodup _ _ _ hbase
        (predictWithRules_names_nodup _ hscn) (fun r _ hm => hm)
    · exact hbase
  have hperm := (List.perm_insertionSort recRel (supplemented (normalize f)
    (seasonCropsOf cfg f) (baseRecs cfg (normalize f) (seasonCropsOf cfg f)))).map
    (fun r => r.cropName)
  have hsorted := hperm.nodup_iff.mpr hsupp
  exact hsorted.sublist ((List.take_sublist 5 _).map _)

/-- Witness for C9 at the single-class model configuration. -/
theorem c9_names_nodup_witness :
    ((predict overflowConfig overflowInput).1.map (fun r => r.cropName)).Nodup :=
  c9_output_names_nodup overflowConfig overflowInput (by decide)

end AgriAdvisor
